import Mathlib

deriving instance DecidableEq for Except

/-!
Verification of the MCDA/TOPSIS ranking engine of the relife-technical-service
repository, embedded shallowly in Lean 4.

The embedding follows `src/relife_technical/services/mcda_topsis.py` closely:

* Python floats are modelled as rationals (`ℚ`), except where the source calls
  `math.sqrt` (the TOPSIS distance step), which is modelled with `Real.sqrt`.
* Python exceptions (`ValueError`, `KeyError`) raised by the ranking code are
  modelled with `Except TopsisError`; the constructors carry the identifying
  data that the corresponding exception messages carry.
* Python dicts used as records/maps are modelled as association lists
  (`List (String × _)`); Python dict key order is insertion order, which the
  embedding reproduces where it matters (the `required_keys` loop and the
  `weighted_kpis` key order).

The legacy per-pillar services (`services/ee.py`, `services/uc.py`) are also
modelled, including their observable misbehaviour on an unrecognized profile
(they `print("Invalid profile")` and then crash with `UnboundLocalError`
because `pillar_score` was never assigned).
-/

namespace Relife

/-- Errors raised by `topsis_rank_technologies`.  In the source these are
`ValueError`/`KeyError` exceptions; each constructor carries the data named in
the corresponding message string. -/
inductive TopsisError where
  | invalidProfile (profile : String)
  | missingBounds (key : String)
  | invalidBounds (key : String) (mn mx : ℚ)
  | missingKpi (techName : String) (key : String)
  deriving DecidableEq, Repr

/-- Discriminator: true exactly on the `missingKpi` constructor. -/
def TopsisError.isMissingKpi : TopsisError → Bool
  | .missingKpi _ _ => true
  | _ => false

/-- Discriminator: true exactly on the two bounds-related constructors
(`missingBounds`, `invalidBounds`). -/
def TopsisError.isBoundsError : TopsisError → Bool
  | .missingBounds _ => true
  | .invalidBounds _ _ _ => true
  | _ => false

/-- Model of `valid_profiles` from `topsis_rank_technologies` (a Python set literal). -/
def validProfiles : List String :=
  ["Environment-Oriented", "Comfort-Oriented", "Financially-Oriented"]

/-- Model of `normalize_high` (mcda_topsis.py line 23): linear score clamped to
`[0, 100]`. -/
def normalize_high (v mn mx : ℚ) : ℚ :=
  max 0 (min 100 ((v - mn) / (mx - mn) * 100))

/-- Model of `normalize_low` (mcda_topsis.py line 27): linear score in the
lower-is-better orientation, clamped to `[0, 100]`. -/
def normalize_low (v mn mx : ℚ) : ℚ :=
  max 0 (min 100 ((mx - v) / (mx - mn) * 100))

/-- Model of `pillar_weight` (mcda_topsis.py line 31):
`(pillar_score / score_total) * (1.0 / no_kpis_in_pillar)` with
`score_total = 15`. -/
def pillar_weight (pillar_score no_kpis_in_pillar : ℚ) : ℚ :=
  pillar_score / 15 * (1 / no_kpis_in_pillar)

/-- Model of `calculate_ee` nested in `topsis_rank_technologies`: normalizes the four
energy-efficiency KPIs (all lower-is-better), then resolves the pillar score
by the if/elif chain on the profile (3 / 2 / 2) and returns
`(pillar_weight p_score 4, normals…)`; an unrecognized profile raises
`ValueError("Invalid profile")`. -/
def calculate_ee (envelope_kpi envelope_min envelope_max
    window_kpi window_min window_max
    heating_system_kpi heating_system_min heating_system_max
    cooling_system_kpi cooling_system_min cooling_system_max : ℚ)
    (profile_ : String) : Except TopsisError (ℚ × ℚ × ℚ × ℚ × ℚ) :=
  let envelope_n := normalize_low envelope_kpi envelope_min envelope_max
  let window_n := normalize_low window_kpi window_min window_max
  let heating_n := normalize_low heating_system_kpi heating_system_min heating_system_max
  let cooling_n := normalize_low cooling_system_kpi cooling_system_min cooling_system_max
  if profile_ = "Environment-Oriented" then
    .ok (pillar_weight 3 4, envelope_n, window_n, heating_n, cooling_n)
  else if profile_ = "Comfort-Oriented" then
    .ok (pillar_weight 2 4, envelope_n, window_n, heating_n, cooling_n)
  else if profile_ = "Financially-Oriented" then
    .ok (pillar_weight 2 4, envelope_n, window_n, heating_n, cooling_n)
  else
    .error (.invalidProfile profile_)

/-- Model of `calculate_fv`: ii/aoc/pp lower-is-better, irr/npv/arv higher-is-better;
pillar scores 5 / 3 / 1 over 6 KPIs. -/
def calculate_fv (ii_kpi ii_min ii_max aoc_kpi aoc_min aoc_max
    irr_kpi irr_min irr_max npv_kpi npv_min npv_max
    pp_kpi pp_min pp_max arv_kpi arv_min arv_max : ℚ)
    (profile_ : String) : Except TopsisError (ℚ × ℚ × ℚ × ℚ × ℚ × ℚ × ℚ) :=
  let ii_n := normalize_low ii_kpi ii_min ii_max
  let aoc_n := normalize_low aoc_kpi aoc_min aoc_max
  let irr_n := normalize_high irr_kpi irr_min irr_max
  let npv_n := normalize_high npv_kpi npv_min npv_max
  let pp_n := normalize_low pp_kpi pp_min pp_max
  let arv_n := normalize_high arv_kpi arv_min arv_max
  if profile_ = "Environment-Oriented" then
    .ok (pillar_weight 5 6, ii_n, aoc_n, irr_n, npv_n, pp_n, arv_n)
  else if profile_ = "Comfort-Oriented" then
    .ok (pillar_weight 3 6, ii_n, aoc_n, irr_n, npv_n, pp_n, arv_n)
  else if profile_ = "Financially-Oriented" then
    .ok (pillar_weight 1 6, ii_n, aoc_n, irr_n, npv_n, pp_n, arv_n)
  else
    .error (.invalidProfile profile_)

/-- Model of `calculate_rei`: all three KPIs higher-is-better; pillar scores 2 / 5 / 3
over 3 KPIs. -/
def calculate_rei (st_kpi st_min st_max onsite_kpi onsite_min onsite_max
    net_export_kpi net_export_min net_export_max : ℚ)
    (profile_ : String) : Except TopsisError (ℚ × ℚ × ℚ × ℚ) :=
  let st_n := normalize_high st_kpi st_min st_max
  let onsite_n := normalize_high onsite_kpi onsite_min onsite_max
  let net_n := normalize_high net_export_kpi net_export_min net_export_max
  if profile_ = "Environment-Oriented" then
    .ok (pillar_weight 2 3, st_n, onsite_n, net_n)
  else if profile_ = "Comfort-Oriented" then
    .ok (pillar_weight 5 3, st_n, onsite_n, net_n)
  else if profile_ = "Financially-Oriented" then
    .ok (pillar_weight 3 3, st_n, onsite_n, net_n)
  else
    .error (.invalidProfile profile_)

/-- Model of `calculate_sei`: both KPIs lower-is-better; pillar scores 1 / 4 / 5 over
2 KPIs. -/
def calculate_sei (embodied_carbon_kpi embodied_carbon_min embodied_carbon_max
    gwp_kpi gwp_min gwp_max : ℚ)
    (profile_ : String) : Except TopsisError (ℚ × ℚ × ℚ) :=
  let ec_n := normalize_low embodied_carbon_kpi embodied_carbon_min embodied_carbon_max
  let gwp_n := normalize_low gwp_kpi gwp_min gwp_max
  if profile_ = "Environment-Oriented" then
    .ok (pillar_weight 1 2, ec_n, gwp_n)
  else if profile_ = "Comfort-Oriented" then
    .ok (pillar_weight 4 2, ec_n, gwp_n)
  else if profile_ = "Financially-Oriented" then
    .ok (pillar_weight 5 2, ec_n, gwp_n)
  else
    .error (.invalidProfile profile_)

/-- Model of `calculate_uc`: both KPIs higher-is-better; pillar scores 4 / 1 / 4 over
2 KPIs. -/
def calculate_uc (air_temp_kpi air_temp_min air_temp_max
    humidity_kpi humidity_min humidity_max : ℚ)
    (profile_ : String) : Except TopsisError (ℚ × ℚ × ℚ) :=
  let t_n := normalize_high air_temp_kpi air_temp_min air_temp_max
  let rh_n := normalize_high humidity_kpi humidity_min humidity_max
  if profile_ = "Environment-Oriented" then
    .ok (pillar_weight 4 2, t_n, rh_n)
  else if profile_ = "Comfort-Oriented" then
    .ok (pillar_weight 1 2, t_n, rh_n)
  else if profile_ = "Financially-Oriented" then
    .ok (pillar_weight 4 2, t_n, rh_n)
  else
    .error (.invalidProfile profile_)

end Relife

namespace Relife

/-- A technology dict from the request payload.  The `"name"` entry (a string)
is kept apart from the 17 float-valued KPI entries; `nameKey = none` models a
dict without a `"name"` key. -/
structure RawTech where
  nameKey : Option String
  kpis : List (String × ℚ)
  deriving DecidableEq, Repr

/-- The `mins_maxes` dict: KPI name to `(min, max)` pair. -/
abbrev BoundsMap := List (String × (ℚ × ℚ))

/-- Model of `mm` nested in `topsis_rank_technologies` (lines 15–21): looks a key up in
`mins_maxes`, raising `KeyError` when absent and `ValueError` when
`max <= min`. -/
def mm (mins_maxes : BoundsMap) (key : String) : Except TopsisError (ℚ × ℚ) :=
  match List.lookup key mins_maxes with
  | none => .error (.missingBounds key)
  | some (mn, mx) => if mx ≤ mn then .error (.invalidBounds key mn mx) else .ok (mn, mx)

/-- The 17 KPI keys of `required_keys` (lines 155–167), in source order,
without the leading `"name"`. -/
def requiredKpiKeys : List String :=
  ["envelope_kpi", "window_kpi", "heating_system_kpi", "cooling_system_kpi",
   "ii_kpi", "aoc_kpi", "irr_kpi", "npv_kpi", "pp_kpi", "arv_kpi",
   "st_coverage_kpi", "onsite_res_kpi", "net_energy_export_kpi",
   "embodied_carbon_kpi", "gwp_kpi",
   "thermal_comfort_air_temp_kpi", "thermal_comfort_humidity_kpi"]

/-- Model of `required_keys` (lines 155–167): the name key followed by the 17 KPI keys. -/
def requiredKeys : List String := "name" :: requiredKpiKeys

/-- Whether a technology dict has a given required key. -/
def hasKey (tech : RawTech) (k : String) : Bool :=
  if k = "name" then tech.nameKey.isSome else (List.lookup k tech.kpis).isSome

/-- The `for k in required_keys` loop (lines 172–174): the first absent key
raises `KeyError(f"Technology '/tech.get(name, unknown)/' missing key 'k'")`. -/
def checkTechKeys (tech : RawTech) : Except TopsisError Unit :=
  match requiredKeys.find? (fun k => ! hasKey tech k) with
  | some k => .error (.missingKpi (tech.nameKey.getD "unknown") k)
  | none => .ok ()

/-- The `weighted_kpis` dict built for one technology (lines 218–245), fields
in source (insertion) order. -/
structure WeightedKpis where
  envelope : ℚ
  window : ℚ
  heating_system : ℚ
  cooling_system : ℚ
  ii : ℚ
  aoc : ℚ
  irr : ℚ
  npv : ℚ
  pp : ℚ
  arv : ℚ
  st_coverage : ℚ
  onsite_res : ℚ
  net_energy_export : ℚ
  embodied_carbon : ℚ
  gwp : ℚ
  thermal_comfort_air_temp : ℚ
  thermal_comfort_humidity : ℚ
  deriving DecidableEq, Repr

/-- The 17 values of the `weighted_kpis` dict in its key order
(`kpi_keys` at line 253). -/
def WeightedKpis.toList (w : WeightedKpis) : List ℚ :=
  [w.envelope, w.window, w.heating_system, w.cooling_system,
   w.ii, w.aoc, w.irr, w.npv, w.pp, w.arv,
   w.st_coverage, w.onsite_res, w.net_energy_export,
   w.embodied_carbon, w.gwp,
   w.thermal_comfort_air_temp, w.thermal_comfort_humidity]

/-- One entry of `weighted_by_tech` (line 247). -/
structure WeightedTech where
  name : String
  weighted_kpis : WeightedKpis
  deriving DecidableEq, Repr

/-- One iteration of the main loop (lines 171–247): validate the
technology's required keys, then per pillar look the bounds up (`mm`) and run
the pillar calculator, and collect the weighted KPI dict.  The bounds of a
KPI are consulted in exactly the source order (EE group, then FV, REI, SEI,
UC), and only after the key check for this technology has passed.  Key lookups
of validated keys use a default of `0` that is never reached, since
`checkTechKeys` ran first (in the source the lookup would have raised
earlier). -/
def weightTech (mins_maxes : BoundsMap) (profile : String) (tech : RawTech) :
    Except TopsisError WeightedTech := do
  checkTechKeys tech
  let g := fun k => (List.lookup k tech.kpis).getD 0
  let envB ← mm mins_maxes "envelope_kpi"
  let winB ← mm mins_maxes "window_kpi"
  let heatB ← mm mins_maxes "heating_system_kpi"
  let coolB ← mm mins_maxes "cooling_system_kpi"
  let ee ← calculate_ee (g "envelope_kpi") envB.1 envB.2 (g "window_kpi") winB.1 winB.2
    (g "heating_system_kpi") heatB.1 heatB.2 (g "cooling_system_kpi") coolB.1 coolB.2 profile
  let iiB ← mm mins_maxes "ii_kpi"
  let aocB ← mm mins_maxes "aoc_kpi"
  let irrB ← mm mins_maxes "irr_kpi"
  let npvB ← mm mins_maxes "npv_kpi"
  let ppB ← mm mins_maxes "pp_kpi"
  let arvB ← mm mins_maxes "arv_kpi"
  let fv ← calculate_fv (g "ii_kpi") iiB.1 iiB.2 (g "aoc_kpi") aocB.1 aocB.2
    (g "irr_kpi") irrB.1 irrB.2 (g "npv_kpi") npvB.1 npvB.2
    (g "pp_kpi") ppB.1 ppB.2 (g "arv_kpi") arvB.1 arvB.2 profile
  let stB ← mm mins_maxes "st_coverage_kpi"
  let onB ← mm mins_maxes "onsite_res_kpi"
  let neB ← mm mins_maxes "net_energy_export_kpi"
  let rei ← calculate_rei (g "st_coverage_kpi") stB.1 stB.2
    (g "onsite_res_kpi") onB.1 onB.2 (g "net_energy_export_kpi") neB.1 neB.2 profile
  let ecB ← mm mins_maxes "embodied_carbon_kpi"
  let gwpB ← mm mins_maxes "gwp_kpi"
  let sei ← calculate_sei (g "embodied_carbon_kpi") ecB.1 ecB.2
    (g "gwp_kpi") gwpB.1 gwpB.2 profile
  let atB ← mm mins_maxes "thermal_comfort_air_temp_kpi"
  let rhB ← mm mins_maxes "thermal_comfort_humidity_kpi"
  let uc ← calculate_uc (g "thermal_comfort_air_temp_kpi") atB.1 atB.2
    (g "thermal_comfort_humidity_kpi") rhB.1 rhB.2 profile
  return { name := tech.nameKey.getD "unknown"
           weighted_kpis :=
            { envelope := ee.1 * ee.2.1
              window := ee.1 * ee.2.2.1
              heating_system := ee.1 * ee.2.2.2.1
              cooling_system := ee.1 * ee.2.2.2.2
              ii := fv.1 * fv.2.1
              aoc := fv.1 * fv.2.2.1
              irr := fv.1 * fv.2.2.2.1
              npv := fv.1 * fv.2.2.2.2.1
              pp := fv.1 * fv.2.2.2.2.2.1
              arv := fv.1 * fv.2.2.2.2.2.2
              st_coverage := rei.1 * rei.2.1
              onsite_res := rei.1 * rei.2.2.1
              net_energy_export := rei.1 * rei.2.2.2
              embodied_carbon := sei.1 * sei.2.1
              gwp := sei.1 * sei.2.2
              thermal_comfort_air_temp := uc.1 * uc.2.1
              thermal_comfort_humidity := uc.1 * uc.2.2 } }

/-- The main `for tech in technologies` loop: processes candidates in order,
aborting at the first exception. -/
def weightAll (mins_maxes : BoundsMap) (profile : String) :
    List RawTech → Except TopsisError (List WeightedTech)
  | [] => .ok []
  | t :: rest => do
    let w ← weightTech mins_maxes profile t
    let ws ← weightAll mins_maxes profile rest
    return w :: ws

/-- The validation-plus-weighting phase of `topsis_rank_technologies`
(lines 11–250): the profile is checked against `valid_profiles` before
anything else; then the loop builds `weighted_by_tech`. -/
def topsisWeighted (technologies : List RawTech) (mins_maxes : BoundsMap)
    (profile : String) : Except TopsisError (List WeightedTech) :=
  if profile ∈ validProfiles then weightAll mins_maxes profile technologies
  else .error (.invalidProfile profile)

/-- Model of `ideal_best` (line 254): the per-dimension maximum over all technologies'
weighted vectors. -/
def idealBest : List (List ℚ) → List ℚ
  | [] => []
  | v :: vs => vs.foldl (fun acc u => List.zipWith max acc u) v

/-- Model of `ideal_worst` (line 255): the per-dimension minimum. -/
def idealWorst : List (List ℚ) → List ℚ
  | [] => []
  | v :: vs => vs.foldl (fun acc u => List.zipWith min acc u) v

/-- Model of `sum((v[k] - w[k]) ** 2 for k in kpi_keys)` (lines 260–261). -/
def sumSq (v w : List ℚ) : ℚ :=
  (List.zipWith (fun a b => (a - b) ^ 2) v w).sum

@[simp]
theorem bindE_ok {ε α β : Type} (a : α) (f : α → Except ε β) :
    (Except.ok a >>= f) = f a := rfl

@[simp]
theorem bindE_error {ε α β : Type} (e : ε) (f : α → Except ε β) :
    ((Except.error e : Except ε α) >>= f) = .error e := rfl

@[simp]
theorem pureE {ε α : Type} (a : α) : (pure a : Except ε α) = .ok a := rfl

/-- One output record (lines 265–275).  The source dict also echoes
`weighted_kpis`, `ideal_best` and `ideal_worst`, which are copies of values
modelled separately; the four fields below are the ones consumed by the route
layer (`RankedTechnology`) and by the sort. -/
structure RankedResult where
  name : String
  closeness : ℝ
  S_plus : ℝ
  S_minus : ℝ

/-- Lines 260–263 for one technology: Euclidean distances to the ideal
vectors (`math.sqrt`) and the closeness coefficient with the `denom != 0`
convention. -/
noncomputable def scoreTech (ideal_best ideal_worst : List ℚ) (t : WeightedTech) :
    RankedResult :=
  let s_plus : ℝ := Real.sqrt ((sumSq t.weighted_kpis.toList ideal_best : ℚ) : ℝ)
  let s_minus : ℝ := Real.sqrt ((sumSq t.weighted_kpis.toList ideal_worst : ℚ) : ℝ)
  let denom := s_plus + s_minus
  { name := t.name
    closeness := if denom ≠ 0 then s_minus / denom else 0
    S_plus := s_plus
    S_minus := s_minus }

/-- Model of `topsis_rank_technologies` in full: weighting phase, early return on an
empty batch (line 249), per-batch ideal vectors, scoring, and the final
stable sort by closeness descending (line 277, `results.sort(key=...,
reverse=True)`). -/
noncomputable def topsisRank (technologies : List RawTech) (mins_maxes : BoundsMap)
    (profile : String) : Except TopsisError (List RankedResult) :=
  match topsisWeighted technologies mins_maxes profile with
  | .error e => .error e
  | .ok weighted_by_tech =>
    if weighted_by_tech.isEmpty then .ok [] else
    let vecs := weighted_by_tech.map (fun t => WeightedKpis.toList t.weighted_kpis)
    let ideal_best := idealBest vecs
    let ideal_worst := idealWorst vecs
    let results := weighted_by_tech.map (scoreTech ideal_best ideal_worst)
    .ok (results.mergeSort (fun a b => decide (b.closeness ≤ a.closeness)))

/-- Observable outcome of a legacy per-pillar service call
(`services/ee.py`, `services/uc.py`, …): either a value, or a crash with
`UnboundLocalError` on the named variable; either way together with the lines
the call printed to stdout. -/
inductive LegacyResult (α : Type) where
  | ok (printed : List String) (val : α)
  | unboundLocalError (printed : List String) (varName : String)
  deriving DecidableEq, Repr

/-- Model of `calculate_ee` from `services/ee.py` (the legacy standalone pillar
service).  Its profile chain recognizes `"Environment-Oriented"`,
`"Comfort-Oriented"` and the misspelled `"Financally-Oriented"` (sic, line
38); on any other string — including the correctly spelled
`"Financially-Oriented"` — it executes `print("Invalid profile")` and falls
through, so the following `pillar_weight = pillar_score/score_total` raises
`UnboundLocalError` on `pillar_score` (no typed invalid-profile error). -/
def legacy_calculate_ee (envelope_kpi envelope_min envelope_max
    window_kpi window_min window_max
    heating_system_kpi heating_system_min heating_system_max
    cooling_system_kpi cooling_system_min cooling_system_max : ℚ)
    (profile : String) : LegacyResult (ℚ × ℚ × ℚ × ℚ × ℚ) :=
  let envelope_n := normalize_low envelope_kpi envelope_min envelope_max
  let window_n := normalize_low window_kpi window_min window_max
  let heating_n := normalize_low heating_system_kpi heating_system_min heating_system_max
  let cooling_n := normalize_low cooling_system_kpi cooling_system_min cooling_system_max
  if profile = "Environment-Oriented" then
    .ok [] (3 / 15 * (1 / 4), envelope_n, window_n, heating_n, cooling_n)
  else if profile = "Comfort-Oriented" then
    .ok [] (2 / 15 * (1 / 4), envelope_n, window_n, heating_n, cooling_n)
  else if profile = "Financally-Oriented" then
    .ok [] (2 / 15 * (1 / 4), envelope_n, window_n, heating_n, cooling_n)
  else
    .unboundLocalError ["Invalid profile"] "pillar_score"

/-- Model of `calculate_uc` from `services/uc.py` (legacy): same shape as
`legacy_calculate_ee`, with scores 4 / 1 / 4 over 2 higher-is-better KPIs and
the same misspelled `"Financally-Oriented"` branch and print-then-crash
fallthrough. -/
def legacy_calculate_uc (air_temp_kpi air_temp_min air_temp_max
    humidity_kpi humidity_min humidity_max : ℚ)
    (profile : String) : LegacyResult (ℚ × ℚ × ℚ) :=
  let t_n := normalize_high air_temp_kpi air_temp_min air_temp_max
  let rh_n := normalize_high humidity_kpi humidity_min humidity_max
  if profile = "Environment-Oriented" then
    .ok [] (4 / 15 * (1 / 2), t_n, rh_n)
  else if profile = "Comfort-Oriented" then
    .ok [] (1 / 15 * (1 / 2), t_n, rh_n)
  else if profile = "Financally-Oriented" then
    .ok [] (4 / 15 * (1 / 2), t_n, rh_n)
  else
    .unboundLocalError ["Invalid profile"] "pillar_score"

/-- Whether an `Except` value is a success. -/
def exceptIsOk {ε α : Type} : Except ε α → Bool
  | .ok _ => true
  | .error _ => false

theorem exceptIsOk_iff {ε α : Type} (x : Except ε α) :
    exceptIsOk x = true ↔ ∃ a, x = .ok a := by
  cases x <;> simp [exceptIsOk]

/-- Number of ranked results on success. -/
def rankCount : Except TopsisError (List RankedResult) → Option Nat
  | .ok rs => some rs.length
  | .error _ => none

/-- Name of the `i`-th ranked result on success. -/
def rankNameAt (out : Except TopsisError (List RankedResult)) (i : Nat) :
    Option String :=
  match out with
  | .ok rs => (rs[i]?).map RankedResult.name
  | .error _ => none

/-- Closeness of the `i`-th ranked result on success (sentinel `37` when the
request failed or the index is out of range; every genuine closeness examined
below lies in `[0, 1]`). -/
noncomputable def rankCloseness (out : Except TopsisError (List RankedResult))
    (i : Nat) : ℝ :=
  match out with
  | .ok rs => ((rs[i]?).map RankedResult.closeness).getD 37
  | .error _ => 37

/-- The output contract of C5 on one ranking outcome: on success the result
list is sorted by closeness descending, every closeness lies in `[0, 1]` and
both distances are nonnegative; failures are not constrained. -/
def sortedRanges (out : Except TopsisError (List RankedResult)) : Prop :=
  match out with
  | .ok rs =>
      rs.Pairwise (fun a b => b.closeness ≤ a.closeness) ∧
      ∀ r ∈ rs, 0 ≤ r.closeness ∧ r.closeness ≤ 1 ∧ 0 ≤ r.S_plus ∧ 0 ≤ r.S_minus
  | .error _ => True

/-- A bounds map giving every one of the 17 KPIs the range `[0, 100]`. -/
def bounds01 : BoundsMap := requiredKpiKeys.map (fun k => (k, (0, 100)))

/-- A technology named `nm` whose 17 KPI values all equal `x`. -/
def techOf (nm : String) (x : ℚ) : RawTech :=
  ⟨some nm, requiredKpiKeys.map (fun k => (k, x))⟩

/-- Scenario input: all KPIs `50`. -/
def tech50 : RawTech := techOf "TechA" 50

/-- End-to-end scenario input: Tech A has every KPI equal to `100`. -/
def techA : RawTech := techOf "A" 100

/-- End-to-end scenario input: Tech B has every KPI equal to `0`. -/
def techB : RawTech := techOf "B" 0

/-- A technology dict that has a name but no KPI keys at all. -/
def techNoKpis : RawTech := ⟨some "T", []⟩

/-- A technology missing exactly `"gwp_kpi"`. -/
def techNoGwp : RawTech :=
  ⟨some "TechMissing", (requiredKpiKeys.filter (fun k => k ≠ "gwp_kpi")).map (fun k => (k, 50))⟩

end Relife

namespace Relife

/-- C6: for `max > min` the higher-is-better normalization is within
`[0, 100]`, is `0` at or below `min`, `100` at or above `max`, and is the
unclamped linear formula on `[min, max]`; out-of-range values are clamped
(the function is total), never rejected. -/
theorem relife_C6 (v mn mx : ℚ) (h : mn < mx) :
    0 ≤ normalize_high v mn mx ∧ normalize_high v mn mx ≤ 100 ∧
    (v ≤ mn → normalize_high v mn mx = 0) ∧
    (mx ≤ v → normalize_high v mn mx = 100) ∧
    (mn ≤ v → v ≤ mx → normalize_high v mn mx = (v - mn) / (mx - mn) * 100) := by
  have hd : (0 : ℚ) < mx - mn := by linarith
  refine ⟨le_max_left _ _, ?_, ?_, ?_, ?_⟩
  · exact max_le (by norm_num) (le_trans (min_le_left _ _) (le_refl _))
  · intro hv
    have hs : (v - mn) / (mx - mn) * 100 ≤ 0 := by
      apply mul_nonpos_of_nonpos_of_nonneg
      · exact div_nonpos_of_nonpos_of_nonneg (by linarith) (le_of_lt hd)
      · norm_num
    have : min 100 ((v - mn) / (mx - mn) * 100) ≤ 0 := le_trans (min_le_right _ _) hs
    simpa [normalize_high] using max_eq_left this
  · intro hv
    have hs : (100 : ℚ) ≤ (v - mn) / (mx - mn) * 100 := by
      have h1 : (1 : ℚ) ≤ (v - mn) / (mx - mn) := (one_le_div hd).mpr (by linarith)
      nlinarith
    have hmin : min 100 ((v - mn) / (mx - mn) * 100) = 100 := min_eq_left hs
    simp [normalize_high, hmin]
  · intro h1 h2
    have hs0 : (0 : ℚ) ≤ (v - mn) / (mx - mn) * 100 :=
      mul_nonneg (div_nonneg (by linarith) (by linarith)) (by norm_num)
    have hs100 : (v - mn) / (mx - mn) * 100 ≤ 100 := by
      have h1' : (v - mn) / (mx - mn) ≤ 1 := (div_le_one hd).mpr (by linarith)
      nlinarith
    simp [normalize_high, min_eq_right hs100, max_eq_right hs0]

/-- Witness for C6 at `(v, mn, mx) = (50, 0, 100)`. -/
theorem relife_C6_witness :
    ((0 : ℚ) < 100) ∧
    (0 ≤ normalize_high 50 0 100 ∧ normalize_high 50 0 100 ≤ 100 ∧
      ((50 : ℚ) ≤ 0 → normalize_high 50 0 100 = 0) ∧
      ((100 : ℚ) ≤ 50 → normalize_high 50 0 100 = 100) ∧
      ((0 : ℚ) ≤ 50 → (50 : ℚ) ≤ 100 →
        normalize_high 50 0 100 = (50 - 0) / (100 - 0) * 100)) :=
  ⟨by norm_num, relife_C6 50 0 100 (by norm_num)⟩

/-- C8: strictly between the bounds, the lower-is-better normalization is
`100` minus the higher-is-better normalization of the same input. -/
theorem relife_C8 (v mn mx : ℚ) (h1 : mn < v) (h2 : v < mx) :
    normalize_low v mn mx = 100 - normalize_high v mn mx := by
  have hd : (0 : ℚ) < mx - mn := by linarith
  have hs0 : (0 : ℚ) ≤ (v - mn) / (mx - mn) * 100 :=
    mul_nonneg (div_nonneg (by linarith) (by linarith)) (by norm_num)
  have hs100 : (v - mn) / (mx - mn) * 100 ≤ 100 := by
    have h1' : (v - mn) / (mx - mn) ≤ 1 := (div_le_one hd).mpr (by linarith)
    nlinarith
  have hl0 : (0 : ℚ) ≤ (mx - v) / (mx - mn) * 100 :=
    mul_nonneg (div_nonneg (by linarith) (by linarith)) (by norm_num)
  have hl100 : (mx - v) / (mx - mn) * 100 ≤ 100 := by
    have h1' : (mx - v) / (mx - mn) ≤ 1 := (div_le_one hd).mpr (by linarith)
    nlinarith
  have key : (mx - v) / (mx - mn) * 100 = 100 - (v - mn) / (mx - mn) * 100 := by
    field_simp
    ring
  rw [normalize_low, normalize_high, min_eq_right hl100, max_eq_right hl0,
    min_eq_right hs100, max_eq_right hs0]
  exact key

/-- Witness for C8 at `(v, mn, mx) = (30, 0, 100)`. -/
theorem relife_C8_witness :
    ((0 : ℚ) < 30) ∧ ((30 : ℚ) < 100) ∧
    normalize_low 30 0 100 = 100 - normalize_high 30 0 100 :=
  ⟨by norm_num, by norm_num, relife_C8 30 0 100 (by norm_num) (by norm_num)⟩

/-- C7: for every pillar and every valid profile, the per-KPI weight returned
by the pillar calculator equals `(score / 15) / kpi_count`, with the scores of
the §4.2 table (EE 3/2/2 over 4, FV 5/3/1 over 6, REI 2/5/3 over 3,
SEI 1/4/5 over 2, UC 4/1/4 over 2). -/
theorem relife_C7 (a b c d e f g h i j k l m n o p q r : ℚ) :
    ((calculate_ee a b c d e f g h i j k l "Environment-Oriented").map Prod.fst
        = .ok (3 / 15 / 4)) ∧
    ((calculate_ee a b c d e f g h i j k l "Comfort-Oriented").map Prod.fst
        = .ok (2 / 15 / 4)) ∧
    ((calculate_ee a b c d e f g h i j k l "Financially-Oriented").map Prod.fst
        = .ok (2 / 15 / 4)) ∧
    ((calculate_fv a b c d e f g h i j k l m n o p q r "Environment-Oriented").map Prod.fst
        = .ok (5 / 15 / 6)) ∧
    ((calculate_fv a b c d e f g h i j k l m n o p q r "Comfort-Oriented").map Prod.fst
        = .ok (3 / 15 / 6)) ∧
    ((calculate_fv a b c d e f g h i j k l m n o p q r "Financially-Oriented").map Prod.fst
        = .ok (1 / 15 / 6)) ∧
    ((calculate_rei a b c d e f g h i "Environment-Oriented").map Prod.fst
        = .ok (2 / 15 / 3)) ∧
    ((calculate_rei a b c d e f g h i "Comfort-Oriented").map Prod.fst
        = .ok (5 / 15 / 3)) ∧
    ((calculate_rei a b c d e f g h i "Financially-Oriented").map Prod.fst
        = .ok (3 / 15 / 3)) ∧
    ((calculate_sei a b c d e f "Environment-Oriented").map Prod.fst
        = .ok (1 / 15 / 2)) ∧
    ((calculate_sei a b c d e f "Comfort-Oriented").map Prod.fst
        = .ok (4 / 15 / 2)) ∧
    ((calculate_sei a b c d e f "Financially-Oriented").map Prod.fst
        = .ok (5 / 15 / 2)) ∧
    ((calculate_uc a b c d e f "Environment-Oriented").map Prod.fst
        = .ok (4 / 15 / 2)) ∧
    ((calculate_uc a b c d e f "Comfort-Oriented").map Prod.fst
        = .ok (1 / 15 / 2)) ∧
    ((calculate_uc a b c d e f "Financially-Oriented").map Prod.fst
        = .ok (4 / 15 / 2)) := by
  refine ⟨?_, ?_, ?_, ?_, ?_, ?_, ?_, ?_, ?_, ?_, ?_, ?_, ?_, ?_, ?_⟩ <;>
    simp [calculate_ee, calculate_fv, calculate_rei, calculate_sei, calculate_uc,
      pillar_weight, Except.map] <;> norm_num

end Relife

namespace Relife

lemma topsisWeighted_invalid (techs : List RawTech) (b : BoundsMap) (p : String)
    (hp : p ∉ validProfiles) :
    topsisWeighted techs b p = .error (.invalidProfile p) := by
  simp [topsisWeighted, hp]

lemma topsisWeighted_valid (techs : List RawTech) (b : BoundsMap) (p : String)
    (hp : p ∈ validProfiles) :
    topsisWeighted techs b p = weightAll b p techs := by
  simp [topsisWeighted, hp]

lemma topsisRank_error (techs : List RawTech) (b : BoundsMap) (p : String)
    (e : TopsisError) (h : topsisWeighted techs b p = .error e) :
    topsisRank techs b p = .error e := by
  simp [topsisRank, h]

lemma weightTech_keyError (b : BoundsMap) (p : String) (t : RawTech)
    (e : TopsisError) (h : checkTechKeys t = .error e) :
    weightTech b p t = .error e := by
  simp [weightTech, h]

lemma weightAll_cons_error (b : BoundsMap) (p : String) (t : RawTech)
    (rest : List RawTech) (e : TopsisError) (h : weightTech b p t = .error e) :
    weightAll b p (t :: rest) = .error e := by
  simp [weightAll, h]

end Relife

namespace Relife

/-- C2: the rank operation rejects every profile outside the closed set with a
typed invalid-profile error before doing anything else; the legacy standalone
pillar services by contrast print "Invalid profile" and then crash with
`UnboundLocalError` on `pillar_score` — on "Bogus" and even on the correctly
spelled "Financially-Oriented" (their chain tests the misspelled
"Financally-Oriented"). -/
theorem relife_C2 :
    (∀ (techs : List RawTech) (b : BoundsMap) (p : String), p ∉ validProfiles →
      topsisRank techs b p = .error (.invalidProfile p)) ∧
    legacy_calculate_ee 50 0 100 50 0 100 50 0 100 50 0 100 "Bogus"
      = .unboundLocalError ["Invalid profile"] "pillar_score" ∧
    legacy_calculate_ee 50 0 100 50 0 100 50 0 100 50 0 100 "Financially-Oriented"
      = .unboundLocalError ["Invalid profile"] "pillar_score" ∧
    legacy_calculate_uc 50 0 100 50 0 100 "Bogus"
      = .unboundLocalError ["Invalid profile"] "pillar_score" := by
  refine ⟨?_, by decide, by decide, by decide⟩
  intro techs b p hp
  exact topsisRank_error _ _ _ _ (topsisWeighted_invalid _ _ _ hp)

/-- Witness for C2 at `profile = "Bogus"` on an empty batch. -/
theorem relife_C2_witness :
    ("Bogus" ∉ validProfiles) ∧
    topsisRank [] [] "Bogus" = .error (.invalidProfile "Bogus") :=
  ⟨by decide, relife_C2.1 [] [] "Bogus" (by decide)⟩

/-- C10: with a valid profile, ranking an empty technology batch returns the
empty list for every bounds map whatsoever — the bounds are never consulted. -/
theorem relife_C10 (b : BoundsMap) (p : String) (hp : p ∈ validProfiles) :
    topsisRank [] b p = .ok [] := by
  rw [topsisRank, topsisWeighted_valid [] b p hp]
  simp [weightAll]

/-- Witness for C10 with the empty bounds map (which is missing every
required entry) and profile "Environment-Oriented". -/
theorem relife_C10_witness :
    ("Environment-Oriented" ∈ validProfiles) ∧
    topsisRank [] [] "Environment-Oriented" = .ok [] :=
  ⟨by decide, relife_C10 [] "Environment-Oriented" (by decide)⟩

/-- C3 (amended): validation order is profile first, then per technology in
input order: the technology's 17 required KPI keys are checked before any of
its bounds lookups, so when the first technology has a key error the rank
operation reports that error whatever the bounds map contains. -/
theorem relife_C3 (b : BoundsMap) (p : String) (t : RawTech)
    (rest : List RawTech) (e : TopsisError) (hp : p ∈ validProfiles)
    (he : checkTechKeys t = .error e) :
    topsisRank (t :: rest) b p = .error e := by
  refine topsisRank_error _ _ _ _ ?_
  rw [topsisWeighted_valid _ _ _ hp]
  exact weightAll_cons_error _ _ _ _ _ (weightTech_keyError _ _ _ _ he)

/-- Counterexample to C3 as stated: one technology with no KPI keys together
with an *empty* bounds map and a valid profile fails with the missing-KPI
error, not with a bounds error, although every bounds entry is missing. -/
theorem relife_C3_counterexample :
    topsisRank [techNoKpis] [] "Environment-Oriented"
      = .error (.missingKpi "T" "envelope_kpi") ∧
    (TopsisError.missingKpi "T" "envelope_kpi").isBoundsError = false := by
  refine ⟨topsisRank_error _ _ _ _ ?_, by decide⟩
  rw [topsisWeighted_valid _ _ _ (by decide)]
  exact weightAll_cons_error _ _ _ _ _ (weightTech_keyError _ _ _ _ (by decide))

/-- Witness for C3 (amended) at the same concrete input. -/
theorem relife_C3_witness :
    ("Environment-Oriented" ∈ validProfiles) ∧
    checkTechKeys techNoKpis = .error (.missingKpi "T" "envelope_kpi") ∧
    topsisRank (techNoKpis :: []) [] "Environment-Oriented"
      = .error (.missingKpi "T" "envelope_kpi") :=
  ⟨by decide, by decide,
   relife_C3 [] "Environment-Oriented" techNoKpis []
     (.missingKpi "T" "envelope_kpi") (by decide) (by decide)⟩

end Relife

namespace Relife

lemma sumSq_self (v : List ℚ) : sumSq v v = 0 := by
  induction v with
  | nil => rfl
  | cons a l ih =>
    simp only [sumSq, List.zipWith_cons_cons, List.sum_cons] at ih ⊢
    rw [ih]
    ring

lemma scoreTech_props (best worst : List ℚ) (t : WeightedTech) :
    0 ≤ (scoreTech best worst t).closeness ∧ (scoreTech best worst t).closeness ≤ 1 ∧
    0 ≤ (scoreTech best worst t).S_plus ∧ 0 ≤ (scoreTech best worst t).S_minus := by
  have hsp : (0 : ℝ) ≤ Real.sqrt ((sumSq t.weighted_kpis.toList best : ℚ) : ℝ) :=
    Real.sqrt_nonneg _
  have hsm : (0 : ℝ) ≤ Real.sqrt ((sumSq t.weighted_kpis.toList worst : ℚ) : ℝ) :=
    Real.sqrt_nonneg _
  simp only [scoreTech]
  refine ⟨?_, ?_, hsp, hsm⟩
  · split_ifs with h
    · exact div_nonneg hsm (add_nonneg hsp hsm)
    · exact le_refl 0
  · split_ifs with h
    · have hpos : 0 < Real.sqrt ((sumSq t.weighted_kpis.toList best : ℚ) : ℝ)
          + Real.sqrt ((sumSq t.weighted_kpis.toList worst : ℚ) : ℝ) :=
        lt_of_le_of_ne (add_nonneg hsp hsm) (Ne.symm h)
      exact (div_le_one hpos).mpr (by linarith)
    · norm_num

end Relife

namespace Relife

/-- C5: for every input whatsoever, a successful ranking is sorted by
closeness descending, every closeness lies in `[0, 1]`, and both distances
are nonnegative (`sortedRanges`). -/
theorem relife_C5 (techs : List RawTech) (b : BoundsMap) (p : String) :
    sortedRanges (topsisRank techs b p) := by
  cases hw : topsisWeighted techs b p with
  | error e => simp [sortedRanges, topsisRank, hw]
  | ok ws =>
    by_cases he : ws.isEmpty = true
    · simp [sortedRanges, topsisRank, hw, he]
    · simp only [topsisRank, hw, he, if_false, sortedRanges]
      constructor
      · have htrans : ∀ (x y z : RankedResult),
            (fun a b : RankedResult => decide (b.closeness ≤ a.closeness)) x y →
            (fun a b : RankedResult => decide (b.closeness ≤ a.closeness)) y z →
            (fun a b : RankedResult => decide (b.closeness ≤ a.closeness)) x z := by
          intro x y z hxy hyz
          simp only [decide_eq_true_eq] at hxy hyz ⊢
          exact le_trans hyz hxy
        have htotal : ∀ (x y : RankedResult),
            ((fun a b : RankedResult => decide (b.closeness ≤ a.closeness)) x y ||
             (fun a b : RankedResult => decide (b.closeness ≤ a.closeness)) y x) = true := by
          intro x y
          simp only [Bool.or_eq_true, decide_eq_true_eq]
          exact le_total y.closeness x.closeness
        have hs := @List.sorted_mergeSort RankedResult
          (fun a b : RankedResult => decide (b.closeness ≤ a.closeness))
          htrans htotal
          (ws.map (scoreTech
            (idealBest (ws.map fun t => WeightedKpis.toList t.weighted_kpis))
            (idealWorst (ws.map fun t => WeightedKpis.toList t.weighted_kpis))))
        exact hs.imp (fun h => by simpa using h)
      · intro r hr
        rw [List.mem_mergeSort] at hr
        obtain ⟨t, -, rfl⟩ := List.mem_map.mp hr
        exact scoreTech_props _ _ t

/-- C4: ranking a single technology, whenever the validation and
weighting phase succeeds, yields exactly one result whose closeness is
exactly `0` (the `S⁺ + S⁻ == 0` convention), never undefined. -/
theorem relife_C4 (t : RawTech) (b : BoundsMap) (p : String)
    (h : exceptIsOk (topsisWeighted [t] b p) = true) :
    rankCount (topsisRank [t] b p) = some 1 ∧
    rankCloseness (topsisRank [t] b p) 0 = 0 := by
  obtain ⟨ws, hws⟩ := (exceptIsOk_iff _).mp h
  by_cases hp : p ∈ validProfiles
  case neg =>
    rw [topsisWeighted_invalid [t] b p hp] at hws
    cases hws
  case pos =>
  rw [topsisWeighted_valid [t] b p hp] at hws
  cases hwt : weightTech b p t with
  | error e =>
    rw [weightAll_cons_error b p t [] e hwt] at hws
    cases hws
  | ok w =>
    have hws' : ws = [w] := by
      simp [weightAll, hwt] at hws
      exact hws.symm
    subst hws'
    have hrank : topsisRank [t] b p = .ok [scoreTech w.weighted_kpis.toList w.weighted_kpis.toList w] := by
      simp [topsisRank, topsisWeighted_valid [t] b p hp, weightAll, hwt, idealBest, idealWorst]
    rw [hrank]
    have hcl : (scoreTech w.weighted_kpis.toList w.weighted_kpis.toList w).closeness = 0 := by
      simp [scoreTech, sumSq_self, Real.sqrt_zero]
    simp [rankCount, rankCloseness, hcl]

/-- Witness for C4: one technology with all KPIs `50`, bounds `[0, 100]`,
profile "Environment-Oriented". -/
theorem relife_C4_witness :
    exceptIsOk (topsisWeighted [tech50] bounds01 "Environment-Oriented") = true ∧
    (rankCount (topsisRank [tech50] bounds01 "Environment-Oriented") = some 1 ∧
     rankCloseness (topsisRank [tech50] bounds01 "Environment-Oriented") 0 = 0) :=
  ⟨by decide, relife_C4 tech50 bounds01 "Environment-Oriented" (by decide)⟩

end Relife

namespace Relife

/-- A bounds map entry for `k` that `mm` accepts: present with `min < max`. -/
def boundsValid (b : BoundsMap) (k : String) : Bool :=
  match List.lookup k b with
  | some (mn, mx) => decide (mn < mx)
  | none => false

lemma mm_ok (b : BoundsMap) (k : String) (h : boundsValid b k = true) :
    ∃ mn mx : ℚ, mm b k = .ok (mn, mx) := by
  unfold boundsValid at h
  cases hl : List.lookup k b with
  | none => rw [hl] at h; cases h
  | some q =>
    obtain ⟨mn, mx⟩ := q
    rw [hl] at h
    simp only [decide_eq_true_eq] at h
    refine ⟨mn, mx, ?_⟩
    simp [mm, hl, not_le.mpr h]

lemma calculate_ee_ok (p : String) (hp : p ∈ validProfiles)
    (a b c d e f g h i j k l : ℚ) :
    ∃ out, calculate_ee a b c d e f g h i j k l p = .ok out := by
  simp only [validProfiles, List.mem_cons, List.mem_singleton,
    List.not_mem_nil, or_false] at hp
  rcases hp with rfl | rfl | rfl <;> exact ⟨_, rfl⟩

lemma calculate_fv_ok (p : String) (hp : p ∈ validProfiles)
    (a b c d e f g h i j k l m n o q r s : ℚ) :
    ∃ out, calculate_fv a b c d e f g h i j k l m n o q r s p = .ok out := by
  simp only [validProfiles, List.mem_cons, List.mem_singleton,
    List.not_mem_nil, or_false] at hp
  rcases hp with rfl | rfl | rfl <;> exact ⟨_, rfl⟩

lemma calculate_rei_ok (p : String) (hp : p ∈ validProfiles)
    (a b c d e f g h i : ℚ) :
    ∃ out, calculate_rei a b c d e f g h i p = .ok out := by
  simp only [validProfiles, List.mem_cons, List.mem_singleton,
    List.not_mem_nil, or_false] at hp
  rcases hp with rfl | rfl | rfl <;> exact ⟨_, rfl⟩

lemma calculate_sei_ok (p : String) (hp : p ∈ validProfiles)
    (a b c d e f : ℚ) :
    ∃ out, calculate_sei a b c d e f p = .ok out := by
  simp only [validProfiles, List.mem_cons, List.mem_singleton,
    List.not_mem_nil, or_false] at hp
  rcases hp with rfl | rfl | rfl <;> exact ⟨_, rfl⟩

lemma calculate_uc_ok (p : String) (hp : p ∈ validProfiles)
    (a b c d e f : ℚ) :
    ∃ out, calculate_uc a b c d e f p = .ok out := by
  simp only [validProfiles, List.mem_cons, List.mem_singleton,
    List.not_mem_nil, or_false] at hp
  rcases hp with rfl | rfl | rfl <;> exact ⟨_, rfl⟩

lemma name_not_in_requiredKpiKeys (k : String) (hk : k ∈ requiredKpiKeys) :
    k ≠ "name" := by
  intro h
  subst h
  exact absurd hk (by decide)

lemma checkTechKeys_error_shape (t : RawTech) (hn : t.nameKey.isSome = true)
    (e : TopsisError) (he : checkTechKeys t = .error e) :
    ∃ k ∈ requiredKpiKeys, List.lookup k t.kpis = none ∧
      e = .missingKpi (t.nameKey.getD "unknown") k := by
  unfold checkTechKeys at he
  cases hf : List.find? (fun k => ! hasKey t k) requiredKeys with
  | none => rw [hf] at he; cases he
  | some k =>
    rw [hf] at he
    have hk := List.find?_some hf
    have hmem := List.mem_of_find?_eq_some hf
    have hkey : hasKey t k = false := by simpa using hk
    have hkname : k ≠ "name" := by
      intro h
      subst h
      simp [hasKey, hn] at hkey
    have hreq : k ∈ requiredKpiKeys := by
      rcases List.mem_cons.mp hmem with h | h
      · exact absurd h hkname
      · exact h
    have hlook : List.lookup k t.kpis = none := by
      cases hlo : List.lookup k t.kpis with
      | none => rfl
      | some v =>
        simp only [hasKey, if_neg hkname, hlo] at hkey
        simp at hkey
    have he' : e = .missingKpi (t.nameKey.getD "unknown") k := by
      cases he
      rfl
    exact ⟨k, hreq, hlook, he'⟩

lemma checkTechKeys_ok_lookup (t : RawTech) (hck : checkTechKeys t = .ok ())
    (k : String) (hk : k ∈ requiredKpiKeys) :
    List.lookup k t.kpis ≠ none := by
  unfold checkTechKeys at hck
  cases hf : List.find? (fun k => ! hasKey t k) requiredKeys with
  | some k' => rw [hf] at hck; cases hck
  | none =>
    have hall := List.find?_eq_none.mp hf k (List.mem_cons_of_mem _ hk)
    intro hnone
    simp [hasKey, name_not_in_requiredKpiKeys k hk, hnone] at hall

lemma weightTech_ok (b : BoundsMap) (p : String) (t : RawTech)
    (hp : p ∈ validProfiles)
    (hb : ∀ k ∈ requiredKpiKeys, boundsValid b k = true)
    (hck : checkTechKeys t = .ok ()) :
    ∃ w, weightTech b p t = .ok w := by
  obtain ⟨mn01, mx01, h01⟩ := mm_ok b "envelope_kpi" (hb _ (by decide))
  obtain ⟨mn02, mx02, h02⟩ := mm_ok b "window_kpi" (hb _ (by decide))
  obtain ⟨mn03, mx03, h03⟩ := mm_ok b "heating_system_kpi" (hb _ (by decide))
  obtain ⟨mn04, mx04, h04⟩ := mm_ok b "cooling_system_kpi" (hb _ (by decide))
  obtain ⟨mn05, mx05, h05⟩ := mm_ok b "ii_kpi" (hb _ (by decide))
  obtain ⟨mn06, mx06, h06⟩ := mm_ok b "aoc_kpi" (hb _ (by decide))
  obtain ⟨mn07, mx07, h07⟩ := mm_ok b "irr_kpi" (hb _ (by decide))
  obtain ⟨mn08, mx08, h08⟩ := mm_ok b "npv_kpi" (hb _ (by decide))
  obtain ⟨mn09, mx09, h09⟩ := mm_ok b "pp_kpi" (hb _ (by decide))
  obtain ⟨mn10, mx10, h10⟩ := mm_ok b "arv_kpi" (hb _ (by decide))
  obtain ⟨mn11, mx11, h11⟩ := mm_ok b "st_coverage_kpi" (hb _ (by decide))
  obtain ⟨mn12, mx12, h12⟩ := mm_ok b "onsite_res_kpi" (hb _ (by decide))
  obtain ⟨mn13, mx13, h13⟩ := mm_ok b "net_energy_export_kpi" (hb _ (by decide))
  obtain ⟨mn14, mx14, h14⟩ := mm_ok b "embodied_carbon_kpi" (hb _ (by decide))
  obtain ⟨mn15, mx15, h15⟩ := mm_ok b "gwp_kpi" (hb _ (by decide))
  obtain ⟨mn16, mx16, h16⟩ := mm_ok b "thermal_comfort_air_temp_kpi" (hb _ (by decide))
  obtain ⟨mn17, mx17, h17⟩ := mm_ok b "thermal_comfort_humidity_kpi" (hb _ (by decide))
  obtain ⟨ee, hee⟩ := calculate_ee_ok p hp
    ((List.lookup "envelope_kpi" t.kpis).getD 0) mn01 mx01
    ((List.lookup "window_kpi" t.kpis).getD 0) mn02 mx02
    ((List.lookup "heating_system_kpi" t.kpis).getD 0) mn03 mx03
    ((List.lookup "cooling_system_kpi" t.kpis).getD 0) mn04 mx04
  obtain ⟨fv, hfv⟩ := calculate_fv_ok p hp
    ((List.lookup "ii_kpi" t.kpis).getD 0) mn05 mx05
    ((List.lookup "aoc_kpi" t.kpis).getD 0) mn06 mx06
    ((List.lookup "irr_kpi" t.kpis).getD 0) mn07 mx07
    ((List.lookup "npv_kpi" t.kpis).getD 0) mn08 mx08
    ((List.lookup "pp_kpi" t.kpis).getD 0) mn09 mx09
    ((List.lookup "arv_kpi" t.kpis).getD 0) mn10 mx10
  obtain ⟨rei, hrei⟩ := calculate_rei_ok p hp
    ((List.lookup "st_coverage_kpi" t.kpis).getD 0) mn11 mx11
    ((List.lookup "onsite_res_kpi" t.kpis).getD 0) mn12 mx12
    ((List.lookup "net_energy_export_kpi" t.kpis).getD 0) mn13 mx13
  obtain ⟨sei, hsei⟩ := calculate_sei_ok p hp
    ((List.lookup "embodied_carbon_kpi" t.kpis).getD 0) mn14 mx14
    ((List.lookup "gwp_kpi" t.kpis).getD 0) mn15 mx15
  obtain ⟨uc, huc⟩ := calculate_uc_ok p hp
    ((List.lookup "thermal_comfort_air_temp_kpi" t.kpis).getD 0) mn16 mx16
    ((List.lookup "thermal_comfort_humidity_kpi" t.kpis).getD 0) mn17 mx17
  simp only [weightTech, hck, bindE_ok, h01, h02, h03, h04, h05, h06, h07, h08,
    h09, h10, h11, h12, h13, h14, h15, h16, h17, hee, hfv, hrei, hsei, huc, pureE]
  exact ⟨_, rfl⟩

lemma weightAll_missing (b : BoundsMap) (p : String)
    (hp : p ∈ validProfiles)
    (hb : ∀ k ∈ requiredKpiKeys, boundsValid b k = true) :
    ∀ techs : List RawTech, (∀ t ∈ techs, t.nameKey.isSome = true) →
    (∃ t ∈ techs, ∃ k ∈ requiredKpiKeys, List.lookup k t.kpis = none) →
    ∃ t ∈ techs, ∃ k ∈ requiredKpiKeys, List.lookup k t.kpis = none ∧
      weightAll b p techs = .error (.missingKpi (t.nameKey.getD "unknown") k)
  | [] => by
    intro _ hmiss
    simp at hmiss
  | t0 :: rest => by
    intro hn hmiss
    cases hck : checkTechKeys t0 with
    | error e =>
      obtain ⟨k, hk, hnone, he⟩ :=
        checkTechKeys_error_shape t0 (hn t0 (by simp)) e hck
      subst he
      exact ⟨t0, by simp, k, hk, hnone,
        weightAll_cons_error _ _ _ _ _ (weightTech_keyError _ _ _ _ hck)⟩
    | ok u =>
      cases u
      obtain ⟨w, hw⟩ := weightTech_ok b p t0 hp hb hck
      obtain ⟨t, ht, k, hk, hnone⟩ := hmiss
      have htrest : t ∈ rest := by
        rcases List.mem_cons.mp ht with h | h
        · subst h
          exact absurd hnone (checkTechKeys_ok_lookup t hck k hk)
        · exact h
      obtain ⟨t2, ht2, k2, hk2, hnone2, heq⟩ :=
        weightAll_missing b p hp hb rest
          (fun x hx => hn x (List.mem_cons_of_mem _ hx)) ⟨t, htrest, k, hk, hnone⟩
      refine ⟨t2, List.mem_cons_of_mem _ ht2, k2, hk2, hnone2, ?_⟩
      simp [weightAll, hw, heq]

end Relife

namespace Relife

/-- C9 (amended): when the profile is valid and every required bounds entry is
present and valid, a batch containing a technology that lacks one of the 17
required KPI keys fails with a missing-KPI error naming an offending
technology (the first one, by the loop order) and a key it lacks; no ranking
is returned. -/
theorem relife_C9 (techs : List RawTech) (b : BoundsMap) (p : String)
    (hp : p ∈ validProfiles)
    (hb : ∀ k ∈ requiredKpiKeys, boundsValid b k = true)
    (hn : ∀ t ∈ techs, t.nameKey.isSome = true)
    (hmiss : ∃ t ∈ techs, ∃ k ∈ requiredKpiKeys, List.lookup k t.kpis = none) :
    ∃ t ∈ techs, ∃ k ∈ requiredKpiKeys, List.lookup k t.kpis = none ∧
      topsisRank techs b p = .error (.missingKpi (t.nameKey.getD "unknown") k) := by
  obtain ⟨t, ht, k, hk, hnone, heq⟩ := weightAll_missing b p hp hb techs hn hmiss
  refine ⟨t, ht, k, hk, hnone, topsisRank_error _ _ _ _ ?_⟩
  rw [topsisWeighted_valid _ _ _ hp]
  exact heq

/-- Witness for C9: a valid technology followed by one missing `"gwp_kpi"`,
full valid bounds, profile "Environment-Oriented". -/
theorem relife_C9_witness :
    ("Environment-Oriented" ∈ validProfiles) ∧
    (∀ k ∈ requiredKpiKeys, boundsValid bounds01 k = true) ∧
    (∀ t ∈ [tech50, techNoGwp], t.nameKey.isSome = true) ∧
    (∃ t ∈ [tech50, techNoGwp], ∃ k ∈ requiredKpiKeys, List.lookup k t.kpis = none) ∧
    (∃ t ∈ [tech50, techNoGwp], ∃ k ∈ requiredKpiKeys, List.lookup k t.kpis = none ∧
      topsisRank [tech50, techNoGwp] bounds01 "Environment-Oriented"
        = .error (.missingKpi (t.nameKey.getD "unknown") k)) :=
  ⟨by decide, by decide, by decide, by decide,
   relife_C9 [tech50, techNoGwp] bounds01 "Environment-Oriented"
     (by decide) (by decide) (by decide) (by decide)⟩

/-- Counterexample to C9 as stated: a rank request that does contain a
technology lacking `"gwp_kpi"` but whose profile is invalid fails with the
invalid-profile error, not with a missing-KPI error. -/
theorem relife_C9_counterexample :
    topsisRank [techNoGwp] bounds01 "Bogus" = .error (.invalidProfile "Bogus") ∧
    (TopsisError.invalidProfile "Bogus").isMissingKpi = false :=
  ⟨topsisRank_error _ _ _ _ (topsisWeighted_invalid _ _ _ (by decide)), by decide⟩

end Relife
namespace Relife

/-- The weighted vector the engine computes for Tech A (all KPIs `100`,
bounds `[0, 100]`, profile "Environment-Oriented"): `100` after
normalization on every higher-is-better KPI, `0` on every lower-is-better
KPI, times the per-KPI pillar weights 1/20, 1/18, 2/45, 1/30, 2/15. -/
def wA : WeightedTech :=
  ⟨"A", ⟨0, 0, 0, 0, 0, 0, 50/9, 50/9, 0, 50/9, 40/9, 40/9, 40/9, 0, 0, 40/3, 40/3⟩⟩

/-- The weighted vector for Tech B (all KPIs `0`): the mirror image of
`wA` — `100` after normalization exactly on the lower-is-better KPIs. -/
def wB : WeightedTech :=
  ⟨"B", ⟨5, 5, 5, 5, 50/9, 50/9, 0, 0, 50/9, 0, 0, 0, 0, 10/3, 10/3, 0, 0⟩⟩

/-- Per-dimension maximum of `wA` and `wB`. -/
def bestL : List ℚ :=
  [5, 5, 5, 5, 50/9, 50/9, 50/9, 50/9, 50/9, 50/9, 40/9, 40/9, 40/9, 10/3, 10/3, 40/3, 40/3]

/-- Per-dimension minimum of `wA` and `wB` (all zero). -/
def worstL : List ℚ :=
  [0, 0, 0, 0, 0, 0, 0, 0, 0, 0, 0, 0, 0, 0, 0, 0, 0]

/-- Value of S⁺ for Tech A in the scenario: the distance √(5800/27) ≈ 14.657. -/
noncomputable def spEnv : ℝ := Real.sqrt (5800/27)

/-- Value of S⁻ for Tech A in the scenario: the distance √(13700/27) ≈ 22.526. -/
noncomputable def smEnv : ℝ := Real.sqrt (13700/27)

lemma spEnv_pos : 0 < spEnv := Real.sqrt_pos.mpr (by norm_num)

lemma smEnv_pos : 0 < smEnv := Real.sqrt_pos.mpr (by norm_num)

lemma spEnv_sq : spEnv ^ 2 = 5800/27 := Real.sq_sqrt (by norm_num)

lemma smEnv_sq : smEnv ^ 2 = 13700/27 := Real.sq_sqrt (by norm_num)

unseal Rat.add Rat.sub Rat.mul Rat.inv in
lemma scenario_weighted :
    topsisWeighted [techA, techB] bounds01 "Environment-Oriented" = .ok [wA, wB] := by
  decide

unseal Rat.add Rat.sub Rat.mul Rat.inv in
lemma scenario_ideals :
    idealBest [wA.weighted_kpis.toList, wB.weighted_kpis.toList] = bestL ∧
    idealWorst [wA.weighted_kpis.toList, wB.weighted_kpis.toList] = worstL := by
  constructor <;> decide

unseal Rat.add Rat.sub Rat.mul Rat.inv in
lemma scenario_sumSq :
    sumSq wA.weighted_kpis.toList bestL = 5800/27 ∧
    sumSq wA.weighted_kpis.toList worstL = 13700/27 ∧
    sumSq wB.weighted_kpis.toList bestL = 13700/27 ∧
    sumSq wB.weighted_kpis.toList worstL = 5800/27 := by
  refine ⟨?_, ?_, ?_, ?_⟩ <;> decide

lemma scenario_scores :
    scoreTech bestL worstL wA = ⟨"A", smEnv / (spEnv + smEnv), spEnv, smEnv⟩ ∧
    scoreTech bestL worstL wB = ⟨"B", spEnv / (smEnv + spEnv), smEnv, spEnv⟩ := by
  have hA1 : ((sumSq wA.weighted_kpis.toList bestL : ℚ) : ℝ) = (5800/27 : ℝ) := by
    rw [scenario_sumSq.1]; norm_num
  have hA2 : ((sumSq wA.weighted_kpis.toList worstL : ℚ) : ℝ) = (13700/27 : ℝ) := by
    rw [scenario_sumSq.2.1]; norm_num
  have hB1 : ((sumSq wB.weighted_kpis.toList bestL : ℚ) : ℝ) = (13700/27 : ℝ) := by
    rw [scenario_sumSq.2.2.1]; norm_num
  have hB2 : ((sumSq wB.weighted_kpis.toList worstL : ℚ) : ℝ) = (5800/27 : ℝ) := by
    rw [scenario_sumSq.2.2.2]; norm_num
  have hne1 : spEnv + smEnv ≠ 0 := (add_pos spEnv_pos smEnv_pos).ne'
  have hne2 : smEnv + spEnv ≠ 0 := (add_pos smEnv_pos spEnv_pos).ne'
  constructor
  · simp only [scoreTech, hA1, hA2]
    rw [if_pos]
    · rfl
    · exact hne1
  · simp only [scoreTech, hB1, hB2]
    rw [if_pos]
    · rfl
    · exact hne2

lemma closeness_B_le_A :
    spEnv / (smEnv + spEnv) ≤ smEnv / (spEnv + smEnv) := by
  have hlt : spEnv < smEnv := by
    rw [spEnv, smEnv]
    exact Real.sqrt_lt_sqrt (by norm_num) (by norm_num)
  rw [add_comm smEnv spEnv]
  exact (div_le_div_iff_of_pos_right (add_pos spEnv_pos smEnv_pos)).mpr hlt.le

lemma scenario_rank :
    topsisRank [techA, techB] bounds01 "Environment-Oriented"
      = .ok [⟨"A", smEnv / (spEnv + smEnv), spEnv, smEnv⟩,
             ⟨"B", spEnv / (smEnv + spEnv), smEnv, spEnv⟩] := by
  rw [topsisRank, scenario_weighted]
  simp only [List.isEmpty_cons, Bool.false_eq_true, if_false,
    List.map_cons, List.map_nil]
  rw [scenario_ideals.1, scenario_ideals.2, scenario_scores.1, scenario_scores.2]
  rw [List.mergeSort_of_sorted]
  simp only [List.pairwise_cons, List.mem_singleton, List.not_mem_nil,
    false_implies, implies_true, and_true]
  constructor
  · intro r hr
    subst hr
    simp only [decide_eq_true_eq]
    exact closeness_B_le_A
  · exact ⟨trivial, List.Pairwise.nil⟩

end Relife

namespace Relife

lemma closenessA_gt : (3/5 : ℝ) < smEnv / (spEnv + smEnv) := by
  rw [lt_div_iff₀ (add_pos spEnv_pos smEnv_pos)]
  nlinarith [spEnv_sq, smEnv_sq, spEnv_pos, smEnv_pos, mul_pos spEnv_pos smEnv_pos]

lemma closenessA_lt : smEnv / (spEnv + smEnv) < (61/100 : ℝ) := by
  rw [div_lt_iff₀ (add_pos spEnv_pos smEnv_pos)]
  nlinarith [spEnv_sq, smEnv_sq, spEnv_pos, smEnv_pos, mul_pos spEnv_pos smEnv_pos]

lemma closenessB_gt : (39/100 : ℝ) < spEnv / (smEnv + spEnv) := by
  rw [lt_div_iff₀ (add_pos smEnv_pos spEnv_pos)]
  nlinarith [spEnv_sq, smEnv_sq, spEnv_pos, smEnv_pos, mul_pos spEnv_pos smEnv_pos]

lemma closenessB_lt : spEnv / (smEnv + spEnv) < (2/5 : ℝ) := by
  rw [div_lt_iff₀ (add_pos smEnv_pos spEnv_pos)]
  nlinarith [spEnv_sq, smEnv_sq, spEnv_pos, smEnv_pos, mul_pos spEnv_pos smEnv_pos]

end Relife

namespace Relife

/-- Counterexample to C1 as stated: in the two-technology end-to-end scenario
(bounds `[0, 100]` everywhere, Tech A all `100`, Tech B all `0`, profile
"Environment-Oriented"), Tech A is indeed ranked first, but its closeness is
below `0.7` — not near `1.0` — and Tech B's closeness is above `0.3` — not
near `0.0`.  (A is *worst*, not best, on every lower-is-better KPI.) -/
theorem relife_C1_counterexample :
    rankNameAt (topsisRank [techA, techB] bounds01 "Environment-Oriented") 0 = some "A" ∧
    rankCloseness (topsisRank [techA, techB] bounds01 "Environment-Oriented") 0 < 7/10 ∧
    (3/10 : ℝ) < rankCloseness (topsisRank [techA, techB] bounds01 "Environment-Oriented") 1 := by
  rw [scenario_rank]
  refine ⟨by simp [rankNameAt], ?_, ?_⟩
  · simpa [rankCloseness] using lt_trans closenessA_lt (by norm_num)
  · simpa [rankCloseness] using lt_trans (by norm_num) closenessB_gt

/-- C1 (amended): in the end-to-end scenario the engine returns exactly two
results, Tech A first and Tech B last, with
`closeness(A) = √(13700/27) / (√(5800/27) + √(13700/27)) ≈ 0.606 ∈ (0.6, 0.61)`
and `closeness(B) ≈ 0.394 ∈ (0.39, 0.4)`: A dominates on every
higher-is-better KPI but B is best on every lower-is-better KPI after
orientation-aware normalization, so neither closeness approaches its
extreme. -/
theorem relife_C1 :
    rankCount (topsisRank [techA, techB] bounds01 "Environment-Oriented") = some 2 ∧
    rankNameAt (topsisRank [techA, techB] bounds01 "Environment-Oriented") 0 = some "A" ∧
    rankNameAt (topsisRank [techA, techB] bounds01 "Environment-Oriented") 1 = some "B" ∧
    (3/5 : ℝ) < rankCloseness (topsisRank [techA, techB] bounds01 "Environment-Oriented") 0 ∧
    rankCloseness (topsisRank [techA, techB] bounds01 "Environment-Oriented") 0 < 61/100 ∧
    (39/100 : ℝ) < rankCloseness (topsisRank [techA, techB] bounds01 "Environment-Oriented") 1 ∧
    rankCloseness (topsisRank [techA, techB] bounds01 "Environment-Oriented") 1 < 2/5 := by
  rw [scenario_rank]
  refine ⟨by simp [rankCount], by simp [rankNameAt], by simp [rankNameAt], ?_, ?_, ?_, ?_⟩
  · simpa [rankCloseness] using closenessA_gt
  · simpa [rankCloseness] using closenessA_lt
  · simpa [rankCloseness] using closenessB_gt
  · simpa [rankCloseness] using closenessB_lt

end Relife
